import Mathlib

/-!
Shallow embedding of `compiler/rustc_infer/src/infer/lattice.rs`
(`super_lattice_tys` and the `LatticeDir` trait), the lattice unification
core of the inference engine.

Modelling conventions, matching exactly what this module observes:
- `Ty` distinguishes the three shapes the source pattern-matches on:
  `ty::Infer(TyVar(vid))`, `ty::Opaque(def_id, substs)` and everything else.
  The substitution list of an opaque type and the payload of any other
  shape are never destructured by this module (they are only compared
  for equality as part of whole-term equality), so they are carried as
  opaque tokens.
- The shared type-variable table (`infcx.inner ... type_variables()`) is a
  list of optional bindings indexed by variable id, plus the origin
  recorded at allocation; `replace_if_possible` follows one level of
  binding; `next_ty_var` appends a fresh unbound entry.
- The four collaborators of the `LatticeDir` strategy (`relate_bound`,
  `super_combine_tys`, the cause, the opaque-types policy) are fields of a
  `LatticeDir` record; the two relating collaborators are arbitrary
  state-passing functions, since they are external to this core.
- `add_obligations` is modelled by the `pushed` field of the call outcome:
  the obligations this module itself pushes during one call.
-/

namespace RustcLattice

/-- Definition identity of a declaration site; `krate = 0` is the local
crate, mirroring rustc's `LOCAL_CRATE`, so `is_local` checks `krate = 0`. -/
structure DefId where
  krate : Nat
  index : Nat
deriving DecidableEq, Repr

/-- Whether the definition lives in the current compilation unit
(rustc's `DefId::is_local`). -/
def DefId.is_local (d : DefId) : Bool := d.krate = 0

/-- Type terms as observed by the lattice module: an inference type
variable `ty::Infer(TyVar(vid))`, an opaque type `ty::Opaque(did, substs)`
(substs opaque to this module), or any other shape (opaque payload). -/
inductive Ty where
  | tyVar (vid : Nat)
  | opq (did : DefId) (substs : Nat)
  | other (payload : Nat)
deriving DecidableEq, Repr

/-- Shape test for `ty::Infer(TyVar(..))`. -/
def Ty.isVarShape : Ty → Bool
  | .tyVar _ => true
  | _ => false

/-- Origin kinds for allocated type variables; the lattice module only
uses `LatticeVariable`. -/
inductive TypeVariableOriginKind where
  | latticeVariable
  | misc
deriving DecidableEq, Repr

/-- Origin recorded when a type variable is allocated (kind plus span). -/
structure TypeVariableOrigin where
  kind : TypeVariableOriginKind
  span : Nat
deriving DecidableEq, Repr

/-- Provenance metadata attached to generated constraints: source span and
a justification code. -/
structure ObligationCause where
  span : Nat
  code : Nat
deriving DecidableEq, Repr

/-- The single error kind of this module (rustc's `TypeError`, called
`RelationError` in the spec), raised by collaborators and propagated. -/
inductive RelationError where
  | mismatch (code : Nat)
deriving DecidableEq, Repr

/-- Result of a relation step (rustc's `RelateResult<'tcx, T>`). -/
inductive RelateResult (α : Type) where
  | ok (val : α)
  | error (e : RelationError)
deriving DecidableEq, Repr

/-- Modelled from the spec: `PredicateObligation` and the constructor
`infcx.opaque_ty_obligation` live outside the packaged sources; per §4.4
and the data model, an obligation built here pairs the two related terms
with the expected-side flag, the parameter environment and the ambient
cause. -/
structure PredicateObligation where
  first : Ty
  second : Ty
  aIsExpected : Bool
  paramEnv : Nat
  cause : ObligationCause
deriving DecidableEq, Repr

/-- Modelled from the spec: builds the single deferred obligation of §4.4,
"the hidden type behind this opaque reference must relate to term X",
carrying the ambient cause and the parameter environment, exactly with the
arguments the source passes at the call site. -/
def opq_ty_obligation (a b : Ty) (aIsExpected : Bool) (paramEnv : Nat)
    (cause : ObligationCause) : PredicateObligation :=
  { first := a, second := b, aIsExpected := aIsExpected,
    paramEnv := paramEnv, cause := cause }

/-- State of the shared type-variable table: `bindings.get? i` is the
binding slot of variable `i` (`some none` = allocated but unbound), and
`origins` records each variable's allocation origin. -/
structure InferState where
  bindings : List (Option Ty)
  origins : List TypeVariableOrigin
deriving DecidableEq, Repr

/-- Binding currently stored for variable `i`, if any. -/
def boundValue (s : InferState) (i : Nat) : Option Ty :=
  match s.bindings.get? i with
  | some (some t) => some t
  | _ => none

/-- Test that a term is a type variable with no stored binding. -/
def isUnboundVar (s : InferState) : Ty → Bool
  | .tyVar i => (boundValue s i).isNone
  | _ => false

/-- The Term Resolver (`type_variables().replace_if_possible`): follows
one level of variable binding, returning the term itself when it is not a
bound variable. -/
def replace_if_possible (s : InferState) (t : Ty) : Ty :=
  match t with
  | .tyVar i =>
    match boundValue s i with
    | some known => known
    | none => t
  | _ => t

/-- The Variable Allocator (`infcx.next_ty_var`): mints a fresh unbound
variable tagged with the given origin, returning it with the new state. -/
def next_ty_var (origin : TypeVariableOrigin) (s : InferState) :
    Ty × InferState :=
  (Ty.tyVar s.bindings.length,
   { bindings := s.bindings ++ [none], origins := s.origins ++ [origin] })

/-- The `LatticeDir` strategy: ambient cause, opaque-type policy, the
expected-side flag and parameter environment consumed by the obligation
constructor, and the two relating collaborators. `relateBound v x y`
relates the pivot `v` to `x` then to `y` in the direction-appropriate
orientation; `superCombineTys` is the Structural Relator entry
(`infcx.super_combine_tys`). Both are state-passing and may fail. -/
structure LatticeDir where
  cause : ObligationCause
  defineOpqTypes : Bool
  aIsExpected : Bool
  paramEnv : Nat
  relateBound : InferState → Ty → Ty → Ty → InferState × RelateResult Unit
  superCombineTys : InferState → Ty → Ty → InferState × RelateResult Ty

/-- Outcome of one `super_lattice_tys` call: final variable-table state,
the obligations this module itself pushed via `add_obligations`, and the
returned `RelateResult`. -/
structure LatticeResult where
  state : InferState
  pushed : List PredicateObligation
  result : RelateResult Ty
deriving DecidableEq, Repr

/-- Pivot allocation of the variable arms (lattice.rs lines 88-91 and
96-99): `infcx.next_ty_var` with origin kind `LatticeVariable` and the
span of the ambient cause. -/
def latticePivot (dir : LatticeDir) (s : InferState) : Ty × InferState :=
  next_ty_var ⟨.latticeVariable, dir.cause.span⟩ s

/-- Body of the two variable arms of `super_lattice_tys` (lattice.rs
lines 87-102): allocate the pivot, run `relate_bound(v, x, y)` with the
`?` operator, and return `Ok(v)` on success. The arm passes the resolved
operands as `x`, `y` in the order the source fixes per arm. -/
def pivotOutcome (dir : LatticeDir) (s : InferState) (x y : Ty) :
    LatticeResult :=
  match dir.relateBound (latticePivot dir s).2 (latticePivot dir s).1 x y with
  | (s2, .ok _) => ⟨s2, [], .ok (latticePivot dir s).1⟩
  | (s2, .error e) => ⟨s2, [], .error e⟩

/-- Body of the arms that delegate to the Structural Relator
(`infcx.super_combine_tys(this, a, b)`, lattice.rs lines 105 and 120):
its state and result are returned verbatim; this module pushes nothing. -/
def relatorOutcome (dir : LatticeDir) (s : InferState) (x y : Ty) :
    LatticeResult :=
  ⟨(dir.superCombineTys s x y).1, [], (dir.superCombineTys s x y).2⟩

/-- Body of the opaque-deferral arm (lattice.rs lines 110-117): push the
single obligation built from the two resolved operands, the expected-side
flag, the parameter environment and the cloned cause, and return `Ok(a)`
(the resolved first operand). -/
def deferOutcome (dir : LatticeDir) (s : InferState) (x y : Ty) :
    LatticeResult :=
  ⟨s, [opq_ty_obligation x y dir.aIsExpected dir.paramEnv dir.cause],
   .ok x⟩

/-- Direct translation of `super_lattice_tys` from
`compiler/rustc_infer/src/infer/lattice.rs` lines 49-122:
raw-equality short-circuit; resolve each side once (shadowing `a`, `b` as
the source does); then the source's match: first arm for `a` a variable
(pivot, `relate_bound(v, b, a)`), second for `b` a variable (pivot,
`relate_bound(v, a, b)`), same-`DefId` opaque pair to the relator, the
guarded opaque or-pattern arm (the guard `define_opaque_types() &&
did.is_local()` is tried per or-pattern alternative, as in Rust) pushing
one obligation and returning `Ok(a)`, and the catch-all relator fallback.
The arm bodies are the `...Outcome` definitions above. -/
def super_lattice_tys (dir : LatticeDir) (s : InferState) (a0 b0 : Ty) :
    LatticeResult :=
  if a0 = b0 then
    ⟨s, [], .ok a0⟩
  else
    let a := replace_if_possible s a0
    let b := replace_if_possible s b0
    match a, b with
    | .tyVar _, _ => pivotOutcome dir s b a
    | _, .tyVar _ => pivotOutcome dir s a b
    | .opq adid _, .opq bdid _ =>
      if adid = bdid then
        relatorOutcome dir s a b
      else if (dir.defineOpqTypes && adid.is_local)
           || (dir.defineOpqTypes && bdid.is_local) then
        deferOutcome dir s a b
      else
        relatorOutcome dir s a b
    | .opq adid _, _ =>
      if dir.defineOpqTypes && adid.is_local then
        deferOutcome dir s a b
      else
        relatorOutcome dir s a b
    | _, .opq bdid _ =>
      if dir.defineOpqTypes && bdid.is_local then
        deferOutcome dir s a b
      else
        relatorOutcome dir s a b
    | _, _ => relatorOutcome dir s a b

/-- Guard of the opaque-deferral arm for one operand: the operand is an
opaque type, the policy allows defining opaque types, and the opaque
definition is local (lattice.rs line 108, tried per or-pattern
alternative). -/
def opqDeferGuard (dir : LatticeDir) : Ty → Bool
  | .opq did _ => dir.defineOpqTypes && did.is_local
  | _ => false

/-- Test used by the first opaque arm (lattice.rs line 104): both terms
are opaque types with the same definition identity. -/
def sameOpqHead : Ty → Ty → Bool
  | .opq d _, .opq e _ => d == e
  | _, _ => false

/-! Basic facts about the table, the allocator and the shape tests. -/

/-- Unbound terms have variable shape. -/
theorem varShape_of_unbound {s : InferState} {t : Ty}
    (h : isUnboundVar s t = true) : t.isVarShape = true := by
  cases t <;> simp_all [isUnboundVar, Ty.isVarShape]

/-- Freshly allocated variables are unbound in the post-allocation state. -/
theorem fresh_var_unbound (o : TypeVariableOrigin) (s : InferState) :
    isUnboundVar (next_ty_var o s).2 (next_ty_var o s).1 = true := by
  simp [next_ty_var, isUnboundVar, boundValue, List.getElem?_concat_length]

/-- Allocation grows the table by exactly one slot. -/
theorem fresh_var_grows (o : TypeVariableOrigin) (s : InferState) :
    (next_ty_var o s).2.bindings.length = s.bindings.length + 1 := by
  simp [next_ty_var]

/-- Terms with distinct resolutions are distinct raw terms. -/
theorem raw_ne_of_resolved_ne {s : InferState} {a b : Ty}
    (h : replace_if_possible s a ≠ replace_if_possible s b) : a ≠ b :=
  fun hh => h (by rw [hh])

/-! Branch-selection lemmas: which arm of `super_lattice_tys` fires for
which resolved shapes. -/

/-- First variable arm: when the resolved first operand is a variable,
the call is the pivot computation with `relate_bound(v, b, a)`. -/
theorem slt_var_left (dir : LatticeDir) (s : InferState) (a b : Ty)
    (hne : a ≠ b) (i : Nat) (hA : replace_if_possible s a = .tyVar i) :
    super_lattice_tys dir s a b =
      pivotOutcome dir s (replace_if_possible s b) (replace_if_possible s a) := by
  unfold super_lattice_tys
  rw [if_neg hne, hA]
  rcases replace_if_possible s b with j | ⟨d, su⟩ | p <;> dsimp only

/-- Second variable arm: resolved first operand not a variable, resolved
second operand a variable; the call is the pivot computation with
`relate_bound(v, a, b)`. -/
theorem slt_var_right (dir : LatticeDir) (s : InferState) (a b : Ty)
    (hne : a ≠ b) (hA : (replace_if_possible s a).isVarShape = false)
    (j : Nat) (hB : replace_if_possible s b = .tyVar j) :
    super_lattice_tys dir s a b =
      pivotOutcome dir s (replace_if_possible s a) (replace_if_possible s b) := by
  unfold super_lattice_tys
  rw [if_neg hne, hB]
  rcases hA' : replace_if_possible s a with i | ⟨d, su⟩ | p
  · rw [hA'] at hA
    simp [Ty.isVarShape] at hA
  · dsimp only
  · dsimp only

/-- Same-identity opaque arm: both resolved terms opaque with equal
`DefId`; the call is the relator delegation. -/
theorem slt_opq_same (dir : LatticeDir) (s : InferState) (a b : Ty)
    (hne : a ≠ b) (d : DefId) (sa sb : Nat)
    (hA : replace_if_possible s a = .opq d sa)
    (hB : replace_if_possible s b = .opq d sb) :
    super_lattice_tys dir s a b =
      relatorOutcome dir s (replace_if_possible s a) (replace_if_possible s b) := by
  unfold super_lattice_tys
  rw [if_neg hne, hA, hB]
  dsimp only
  rw [if_pos rfl]

/-- Exhaustive branch enumeration for a raw-distinct pair: the call is
one of the four arm outcomes, with the pivot arm receiving the two
resolved operands in the arm's fixed order. -/
theorem slt_cases (dir : LatticeDir) (s : InferState) (a b : Ty)
    (hne : a ≠ b) :
    super_lattice_tys dir s a b =
        pivotOutcome dir s (replace_if_possible s b) (replace_if_possible s a) ∨
    super_lattice_tys dir s a b =
        pivotOutcome dir s (replace_if_possible s a) (replace_if_possible s b) ∨
    super_lattice_tys dir s a b =
        deferOutcome dir s (replace_if_possible s a) (replace_if_possible s b) ∨
    super_lattice_tys dir s a b =
        relatorOutcome dir s (replace_if_possible s a) (replace_if_possible s b) := by
  unfold super_lattice_tys
  rw [if_neg hne]
  rcases hA : replace_if_possible s a with i | ⟨d, sa⟩ | p <;>
    rcases hB : replace_if_possible s b with j | ⟨e', sb⟩ | q <;>
    dsimp only
  · exact Or.inl rfl
  · exact Or.inl rfl
  · exact Or.inl rfl
  · exact Or.inr (Or.inl rfl)
  · by_cases hd : d = e'
    · rw [if_pos hd]
      exact Or.inr (Or.inr (Or.inr rfl))
    · rw [if_neg hd]
      by_cases hg : (dir.defineOpqTypes && d.is_local
          || dir.defineOpqTypes && e'.is_local) = true
      · rw [if_pos hg]
        exact Or.inr (Or.inr (Or.inl rfl))
      · rw [if_neg hg]
        exact Or.inr (Or.inr (Or.inr rfl))
  · by_cases hg : (dir.defineOpqTypes && d.is_local) = true
    · rw [if_pos hg]
      exact Or.inr (Or.inr (Or.inl rfl))
    · rw [if_neg hg]
      exact Or.inr (Or.inr (Or.inr rfl))
  · exact Or.inr (Or.inl rfl)
  · by_cases hg : (dir.defineOpqTypes && e'.is_local) = true
    · rw [if_pos hg]
      exact Or.inr (Or.inr (Or.inl rfl))
    · rw [if_neg hg]
      exact Or.inr (Or.inr (Or.inr rfl))
  · exact Or.inr (Or.inr (Or.inr rfl))

/-! Analysis lemmas for the three arm outcomes. -/

/-- An `Ok` pivot outcome returns exactly the fresh pivot, and only after
`relate_bound` succeeded on it. -/
theorem pivotOutcome_ok {dir : LatticeDir} {s : InferState} {x y : Ty}
    {t : Ty} (h : (pivotOutcome dir s x y).result = .ok t) :
    t = (latticePivot dir s).1 ∧
    (dir.relateBound (latticePivot dir s).2 (latticePivot dir s).1 x y).2 =
      .ok () := by
  unfold pivotOutcome at *
  rcases hr : dir.relateBound (latticePivot dir s).2 (latticePivot dir s).1 x y
    with ⟨s2, r⟩
  rw [hr] at h
  cases r with
  | ok u =>
    refine ⟨?_, rfl⟩
    cases h
    rfl
  | error e' => simp at h

/-- An erroring pivot outcome surfaces `relate_bound`'s error and state
verbatim and pushes nothing. -/
theorem pivotOutcome_error {dir : LatticeDir} {s : InferState} {x y : Ty}
    {e : RelationError} (h : (pivotOutcome dir s x y).result = .error e) :
    dir.relateBound (latticePivot dir s).2 (latticePivot dir s).1 x y =
      ((pivotOutcome dir s x y).state, .error e) ∧
    (pivotOutcome dir s x y).pushed = [] := by
  unfold pivotOutcome at *
  rcases hr : dir.relateBound (latticePivot dir s).2 (latticePivot dir s).1 x y
    with ⟨s2, r⟩
  rw [hr] at h
  cases r with
  | ok u => simp at h
  | error e' =>
    cases h
    exact ⟨rfl, rfl⟩

/-- The deferral outcome never errors. -/
theorem deferOutcome_result (dir : LatticeDir) (s : InferState) (x y : Ty) :
    (deferOutcome dir s x y).result = .ok x := rfl

/-- An erroring relator outcome surfaces the relator's error and state
verbatim and pushes nothing. -/
theorem relatorOutcome_error {dir : LatticeDir} {s : InferState} {x y : Ty}
    {e : RelationError} (h : (relatorOutcome dir s x y).result = .error e) :
    dir.superCombineTys s x y = ((relatorOutcome dir s x y).state, .error e) ∧
    (relatorOutcome dir s x y).pushed = [] := by
  unfold relatorOutcome at *
  dsimp at h ⊢
  rw [← h]
  exact ⟨rfl, rfl⟩

/-- Changing only the ambient cause changes neither the pivot nor the
returned result of the pivot arm, provided `relate_bound`'s verdict does
not depend on the diagnostic origins stored in the table. -/
theorem pivotOutcome_cause_indep (dir : LatticeDir) (c' : ObligationCause)
    (s : InferState) (x y : Ty)
    (hrb : ∀ st₁ st₂ v xx yy, st₁.bindings = st₂.bindings →
      (dir.relateBound st₁ v xx yy).2 = (dir.relateBound st₂ v xx yy).2) :
    (pivotOutcome { dir with cause := c' } s x y).result =
      (pivotOutcome dir s x y).result := by
  unfold pivotOutcome latticePivot next_ty_var
  dsimp only
  have h2 : (dir.relateBound
      ⟨s.bindings ++ [none],
       s.origins ++ [⟨TypeVariableOriginKind.latticeVariable, c'.span⟩]⟩
      (Ty.tyVar s.bindings.length) x y).2 =
    (dir.relateBound
      ⟨s.bindings ++ [none],
       s.origins ++ [⟨TypeVariableOriginKind.latticeVariable, dir.cause.span⟩]⟩
      (Ty.tyVar s.bindings.length) x y).2 := by
    exact hrb _ _ _ _ _ rfl
  rcases hq1 : dir.relateBound
      ⟨s.bindings ++ [none],
       s.origins ++ [⟨TypeVariableOriginKind.latticeVariable, c'.span⟩]⟩
      (Ty.tyVar s.bindings.length) x y with ⟨s2, r1⟩
  rcases hq2 : dir.relateBound
      ⟨s.bindings ++ [none],
       s.origins ++ [⟨TypeVariableOriginKind.latticeVariable, dir.cause.span⟩]⟩
      (Ty.tyVar s.bindings.length) x y with ⟨s3, r2⟩
  rw [hq1, hq2] at h2
  dsimp at h2
  subst h2
  rw [hq1, hq2]
  cases r1 <;> rfl

/-! Concrete collaborator instances. These instantiate the external
collaborators for the concrete runs used by the counterexamples and the
witnesses; the relating collaborators are deliberately simple so a run is
fully computable. -/

/-- A `relate_bound` that succeeds without touching the table. -/
def okBound : InferState → Ty → Ty → Ty → InferState × RelateResult Unit :=
  fun st _ _ _ => (st, .ok ())

/-- A `relate_bound` whose first step fails with mismatch 9. -/
def errBound9 : InferState → Ty → Ty → Ty → InferState × RelateResult Unit :=
  fun st _ _ _ => (st, .error (.mismatch 9))

/-- A Structural Relator that succeeds, returning its first argument. -/
def okRelator : InferState → Ty → Ty → InferState × RelateResult Ty :=
  fun st x _ => (st, .ok x)

/-- A Structural Relator that fails with mismatch 3. -/
def errRelator3 : InferState → Ty → Ty → InferState × RelateResult Ty :=
  fun st _ _ => (st, .error (.mismatch 3))

/-- A concrete ambient cause. -/
def cause0 : ObligationCause := ⟨11, 22⟩

/-- A second, different ambient cause. -/
def cause1 : ObligationCause := ⟨77, 88⟩

/-- Strategy with succeeding collaborators and opaque types allowed. -/
def dirOk : LatticeDir := ⟨cause0, true, true, 5, okBound, okRelator⟩

/-- Strategy whose Structural Relator fails. -/
def dirRelErr : LatticeDir := ⟨cause0, true, true, 5, okBound, errRelator3⟩

/-- Strategy whose `relate_bound` fails. -/
def dirBoundErr : LatticeDir := ⟨cause0, true, true, 5, errBound9, okRelator⟩

/-- Table with one unbound variable. -/
def stOneVar : InferState := ⟨[none], [⟨.misc, 0⟩]⟩

/-- Table with two unbound variables. -/
def stTwoVars : InferState := ⟨[none, none], [⟨.misc, 0⟩, ⟨.misc, 0⟩]⟩

/-- Table with variable 0 bound to the concrete term `other 7`. -/
def stBound7 : InferState := ⟨[some (Ty.other 7)], [⟨.misc, 0⟩]⟩


/-! Claim theorems. -/

/-- C5: for all structurally equal input terms `a == b`,
`computeLattice(_, a, b)` returns `Ok(a)`, and no obligations are pushed
during the call (the table is untouched and no collaborator runs). -/
theorem c5_reflexivity_identity (dir : LatticeDir) (s : InferState)
    (a b : Ty) (h : a = b) :
    super_lattice_tys dir s a b = ⟨s, [], .ok a⟩ := by
  unfold super_lattice_tys
  rw [if_pos h]

/-- Witness for C5 at a concrete equal pair. -/
theorem c5_reflexivity_identity_witness :
    super_lattice_tys dirOk stOneVar (Ty.other 7) (Ty.other 7) =
      ⟨stOneVar, [], .ok (Ty.other 7)⟩ :=
  c5_reflexivity_identity dirOk stOneVar (Ty.other 7) (Ty.other 7) rfl

/-- C1: when exactly one resolved term is an unbound type variable and
the other is not a variable, the call allocates a fresh (unbound) pivot
and is the pivot computation `relate_bound(pivot, nonVariableOperand,
variableOperand)` — non-variable first, variable last, in both symmetric
cases — returning `Ok(pivot)` on success (see `pivotOutcome`). -/
theorem c1_single_variable_pivot_order (dir : LatticeDir) (s : InferState)
    (a b a' b' : Ty)
    (ha : replace_if_possible s a = a')
    (hb : replace_if_possible s b = b')
    (hone : (isUnboundVar s a' = true ∧ b'.isVarShape = false) ∨
            (a'.isVarShape = false ∧ isUnboundVar s b' = true)) :
    isUnboundVar (latticePivot dir s).2 (latticePivot dir s).1 = true ∧
    super_lattice_tys dir s a b =
      pivotOutcome dir s (if a'.isVarShape then b' else a')
        (if a'.isVarShape then a' else b') := by
  refine ⟨fresh_var_unbound _ _, ?_⟩
  rcases hone with ⟨hua, hvb⟩ | ⟨hva, hub⟩
  · have hsa : a'.isVarShape = true := varShape_of_unbound hua
    obtain ⟨i, hi⟩ : ∃ i, a' = Ty.tyVar i := by
      cases a' with
      | tyVar i => exact ⟨i, rfl⟩
      | opq d su => simp [Ty.isVarShape] at hsa
      | other p => simp [Ty.isVarShape] at hsa
    have hne' : a' ≠ b' := by
      intro hh
      rw [hh] at hsa
      rw [hsa] at hvb
      exact Bool.noConfusion hvb
    have hne : a ≠ b := raw_ne_of_resolved_ne (by rw [ha, hb]; exact hne')
    have hq := slt_var_left dir s a b hne i (ha.trans hi)
    rw [hq, ha, hb]
    simp [hsa]
  · have hsb : b'.isVarShape = true := varShape_of_unbound hub
    obtain ⟨j, hj⟩ : ∃ j, b' = Ty.tyVar j := by
      cases b' with
      | tyVar j => exact ⟨j, rfl⟩
      | opq d su => simp [Ty.isVarShape] at hsb
      | other p => simp [Ty.isVarShape] at hsb
    have hne' : a' ≠ b' := by
      intro hh
      rw [← hh] at hsb
      rw [hsb] at hva
      exact Bool.noConfusion hva
    have hne : a ≠ b := raw_ne_of_resolved_ne (by rw [ha, hb]; exact hne')
    have hq := slt_var_right dir s a b hne (by rw [ha]; exact hva) j
      (hb.trans hj)
    rw [hq, ha, hb]
    simp [hva]

/-- Witness for C1: unbound variable on the left, concrete term on the
right; the call is the pivot computation with the concrete term passed
to `relate_bound` before the variable. -/
theorem c1_single_variable_pivot_order_witness :
    isUnboundVar (latticePivot dirOk stOneVar).2
      (latticePivot dirOk stOneVar).1 = true ∧
    super_lattice_tys dirOk stOneVar (Ty.tyVar 0) (Ty.other 7) =
      pivotOutcome dirOk stOneVar (Ty.other 7) (Ty.tyVar 0) :=
  c1_single_variable_pivot_order dirOk stOneVar (Ty.tyVar 0) (Ty.other 7)
    (Ty.tyVar 0) (Ty.other 7) (by decide) (by decide)
    (Or.inl ⟨by decide, by decide⟩)

/-- C2 counterexample: both resolved terms are distinct unbound type
variables, yet the call allocates a pivot (the table grows from 2 to 3
slots) and invokes `relate_bound` (its mismatch surfaces as the result)
instead of delegating to the Structural Relator, whose verdict on the
pair would have been `Ok`. -/
theorem c2_counterexample :
    replace_if_possible stTwoVars (Ty.tyVar 0) = Ty.tyVar 0 ∧
    replace_if_possible stTwoVars (Ty.tyVar 1) = Ty.tyVar 1 ∧
    isUnboundVar stTwoVars (Ty.tyVar 0) = true ∧
    isUnboundVar stTwoVars (Ty.tyVar 1) = true ∧
    (super_lattice_tys dirBoundErr stTwoVars (Ty.tyVar 0)
      (Ty.tyVar 1)).result = .error (.mismatch 9) ∧
    (super_lattice_tys dirBoundErr stTwoVars (Ty.tyVar 0)
      (Ty.tyVar 1)).state.bindings.length = 3 ∧
    (dirBoundErr.superCombineTys stTwoVars (Ty.tyVar 0) (Ty.tyVar 1)).2 =
      .ok (Ty.tyVar 0) := by
  decide

/-- C2 amended: when both resolved terms are unbound type variables and
the raw inputs differ, the FIRST variable arm fires: the call allocates a
pivot and is the pivot computation `relate_bound(pivot, b, a)` (resolved
second operand first), returning `Ok(pivot)` on success; the Structural
Relator is not consulted. (Equal raw inputs short-circuit per C5.) -/
theorem c2_amended_both_vars_pivot (dir : LatticeDir) (s : InferState)
    (a b : Ty) (hne : a ≠ b)
    (hva : isUnboundVar s (replace_if_possible s a) = true)
    (_hvb : isUnboundVar s (replace_if_possible s b) = true) :
    super_lattice_tys dir s a b =
      pivotOutcome dir s (replace_if_possible s b)
        (replace_if_possible s a) := by
  have hsa : (replace_if_possible s a).isVarShape = true :=
    varShape_of_unbound hva
  obtain ⟨i, hi⟩ : ∃ i, replace_if_possible s a = Ty.tyVar i := by
    cases hx : replace_if_possible s a with
    | tyVar i => exact ⟨i, rfl⟩
    | opq d su => rw [hx] at hsa; simp [Ty.isVarShape] at hsa
    | other p => rw [hx] at hsa; simp [Ty.isVarShape] at hsa
  exact slt_var_left dir s a b hne i hi

/-- Witness for the amended C2 at two concrete distinct unbound
variables. -/
theorem c2_amended_both_vars_pivot_witness :
    super_lattice_tys dirOk stTwoVars (Ty.tyVar 0) (Ty.tyVar 1) =
      pivotOutcome dirOk stTwoVars (Ty.tyVar 1) (Ty.tyVar 0) :=
  c2_amended_both_vars_pivot dirOk stTwoVars (Ty.tyVar 0) (Ty.tyVar 1)
    (by decide) (by decide) (by decide)

/-- C3 counterexample: the raw inputs differ but resolve to the same
term, yet the call does NOT return that term immediately with no
relation calls: it delegates to the Structural Relator, whose mismatch
becomes the result. -/
theorem c3_counterexample :
    (Ty.tyVar 0 : Ty) ≠ Ty.other 7 ∧
    replace_if_possible stBound7 (Ty.tyVar 0) = Ty.other 7 ∧
    replace_if_possible stBound7 (Ty.other 7) = Ty.other 7 ∧
    (super_lattice_tys dirRelErr stBound7 (Ty.tyVar 0)
      (Ty.other 7)).result = .error (.mismatch 3) := by
  decide

/-- C3 amended: the structural-equality short-circuit applies to the RAW
inputs before any resolution (that part is C5); a pair whose raw inputs
differ is resolved and dispatched on shape even when the resolved terms
are equal — for equal resolved terms of non-variable shape the call is
the Structural Relator delegation, not an immediate return. -/
theorem c3_amended_short_circuit_is_raw (dir : LatticeDir) (s : InferState)
    (a b : Ty) (hne : a ≠ b)
    (heq : replace_if_possible s a = replace_if_possible s b)
    (hnv : (replace_if_possible s a).isVarShape = false) :
    super_lattice_tys dir s a b =
      relatorOutcome dir s (replace_if_possible s a)
        (replace_if_possible s b) := by
  rcases hA : replace_if_possible s a with i | ⟨d, sa⟩ | p
  · rw [hA] at hnv
    simp [Ty.isVarShape] at hnv
  · rw [← hA]
    exact slt_opq_same dir s a b hne d sa sa hA (by rw [← heq, hA])
  · have hB : replace_if_possible s b = Ty.other p := by rw [← heq, hA]
    rw [← hA]
    unfold super_lattice_tys
    rw [if_neg hne, hA, hB]

/-- Witness for the amended C3: raw-distinct, resolved-equal pair is
delegated to the relator. -/
theorem c3_amended_short_circuit_is_raw_witness :
    super_lattice_tys dirRelErr stBound7 (Ty.tyVar 0) (Ty.other 7) =
      relatorOutcome dirRelErr stBound7 (Ty.other 7) (Ty.other 7) :=
  c3_amended_short_circuit_is_raw dirRelErr stBound7 (Ty.tyVar 0)
    (Ty.other 7) (by decide) (by decide) (by decide)

/-- C4 counterexample: one resolved term is a local opaque type (not a
same-identity opaque pair), `opaqueTypesAllowed()` is true — yet because
the other operand is an unbound type variable, the variable arm wins: no
obligation is pushed and the result is the fresh pivot `Ok(tyVar 1)`,
not `Ok(a) = Ok(tyVar 0)`. -/
theorem c4_counterexample :
    dirOk.defineOpqTypes = true ∧
    (DefId.mk 0 4).is_local = true ∧
    replace_if_possible stOneVar (Ty.opq ⟨0, 4⟩ 9) = Ty.opq ⟨0, 4⟩ 9 ∧
    isUnboundVar stOneVar (Ty.tyVar 0) = true ∧
    (super_lattice_tys dirOk stOneVar (Ty.tyVar 0)
      (Ty.opq ⟨0, 4⟩ 9)).pushed = [] ∧
    (super_lattice_tys dirOk stOneVar (Ty.tyVar 0)
      (Ty.opq ⟨0, 4⟩ 9)).result = .ok (Ty.tyVar 1) := by
  decide

/-- C4 amended: when NEITHER resolved term is a type variable, at least
one resolved term is an opaque type passing the deferral guard (policy
allows and its identity is local), and the pair is not a same-identity
opaque pair, the call pushes exactly one deferred obligation over the
two resolved operands — carrying the ambient cause and the parameter
environment — leaves the table untouched, and returns `Ok` of the
resolved first operand. -/
theorem c4_amended_opq_deferral (dir : LatticeDir) (s : InferState)
    (a b a' b' : Ty)
    (ha : replace_if_possible s a = a')
    (hb : replace_if_possible s b = b')
    (hva : a'.isVarShape = false) (hvb : b'.isVarShape = false)
    (hg : opqDeferGuard dir a' = true ∨ opqDeferGuard dir b' = true)
    (hns : sameOpqHead a' b' = false) :
    super_lattice_tys dir s a b = deferOutcome dir s a' b' := by
  have hne' : a' ≠ b' := by
    intro hh
    cases a' with
    | tyVar i => simp [Ty.isVarShape] at hva
    | opq d su =>
      rw [← hh] at hns
      simp [sameOpqHead] at hns
    | other p =>
      rw [← hh] at hg
      simp [opqDeferGuard] at hg
  have hne : a ≠ b := raw_ne_of_resolved_ne (by rw [ha, hb]; exact hne')
  cases a' with
  | tyVar i => simp [Ty.isVarShape] at hva
  | opq d sa =>
    cases b' with
    | tyVar j => simp [Ty.isVarShape] at hvb
    | opq e' sb =>
      have hd : d ≠ e' := by
        intro hh
        rw [hh] at hns
        simp [sameOpqHead] at hns
      have hgg : (dir.defineOpqTypes && d.is_local
          || dir.defineOpqTypes && e'.is_local) = true := by
        rcases hg with h | h
        · simp only [opqDeferGuard] at h
          simp [h]
        · simp only [opqDeferGuard] at h
          simp [h]
      unfold super_lattice_tys
      rw [if_neg hne, ha, hb]
      dsimp only
      rw [if_neg hd, if_pos hgg]
    | other q =>
      have hga : (dir.defineOpqTypes && d.is_local) = true := by
        rcases hg with h | h
        · simpa [opqDeferGuard] using h
        · simp [opqDeferGuard] at h
      unfold super_lattice_tys
      rw [if_neg hne, ha, hb]
      dsimp only
      rw [if_pos hga]
  | other p =>
    cases b' with
    | tyVar j => simp [Ty.isVarShape] at hvb
    | opq e' sb =>
      have hgb : (dir.defineOpqTypes && e'.is_local) = true := by
        rcases hg with h | h
        · simp [opqDeferGuard] at h
        · simpa [opqDeferGuard] using h
      unfold super_lattice_tys
      rw [if_neg hne, ha, hb]
      dsimp only
      rw [if_pos hgb]
    | other q =>
      rcases hg with h | h <;> simp [opqDeferGuard] at h

/-- Witness for the amended C4: concrete non-variable operand against a
local opaque type with the policy enabled. -/
theorem c4_amended_opq_deferral_witness :
    super_lattice_tys dirOk stOneVar (Ty.other 7) (Ty.opq ⟨0, 4⟩ 9) =
      deferOutcome dirOk stOneVar (Ty.other 7) (Ty.opq ⟨0, 4⟩ 9) :=
  c4_amended_opq_deferral dirOk stOneVar (Ty.other 7) (Ty.opq ⟨0, 4⟩ 9)
    (Ty.other 7) (Ty.opq ⟨0, 4⟩ 9) (by decide) (by decide) (by decide)
    (by decide) (Or.inr (by decide)) (by decide)

/-- C6 counterexample: the two inputs are the same opaque term (both
resolved terms reference the same definition identity), yet the call
returns `Ok` immediately via the raw-equality short-circuit while the
Structural Relator's verdict on the resolved pair is a mismatch — so the
call is NOT the relator delegation returning its result verbatim. -/
theorem c6_counterexample :
    replace_if_possible stOneVar (Ty.opq ⟨0, 5⟩ 3) = Ty.opq ⟨0, 5⟩ 3 ∧
    sameOpqHead (Ty.opq ⟨0, 5⟩ 3) (Ty.opq ⟨0, 5⟩ 3) = true ∧
    (super_lattice_tys dirRelErr stOneVar (Ty.opq ⟨0, 5⟩ 3)
      (Ty.opq ⟨0, 5⟩ 3)).result = .ok (Ty.opq ⟨0, 5⟩ 3) ∧
    (dirRelErr.superCombineTys stOneVar (Ty.opq ⟨0, 5⟩ 3)
      (Ty.opq ⟨0, 5⟩ 3)).2 = .error (.mismatch 3) := by
  decide

/-- C6 amended: when the raw inputs differ and both resolved terms are
opaque types referencing the same definition identity, the call
delegates entirely to the Structural Relator over the two resolved terms
and returns its state and result verbatim, pushing no obligations itself
(equal raw inputs short-circuit per C5 without consulting the relator). -/
theorem c6_amended_same_identity_relator (dir : LatticeDir)
    (s : InferState) (a b : Ty) (hne : a ≠ b)
    (hs : sameOpqHead (replace_if_possible s a)
      (replace_if_possible s b) = true) :
    super_lattice_tys dir s a b =
      relatorOutcome dir s (replace_if_possible s a)
        (replace_if_possible s b) := by
  rcases hA : replace_if_possible s a with i | ⟨d, sa⟩ | p
  · rw [hA] at hs
    simp [sameOpqHead] at hs
  · rcases hB : replace_if_possible s b with j | ⟨e', sb⟩ | q
    · rw [hA, hB] at hs
      simp [sameOpqHead] at hs
    · rw [hA, hB] at hs
      simp only [sameOpqHead, beq_iff_eq] at hs
      rw [← hA, ← hB]
      exact slt_opq_same dir s a b hne d sa sb hA (hs ▸ hB)
    · rw [hA, hB] at hs
      simp [sameOpqHead] at hs
  · rw [hA] at hs
    simp [sameOpqHead] at hs

/-- Witness for the amended C6: same identity, different substitutions. -/
theorem c6_amended_same_identity_relator_witness :
    super_lattice_tys dirRelErr stOneVar (Ty.opq ⟨0, 5⟩ 3)
      (Ty.opq ⟨0, 5⟩ 4) =
    relatorOutcome dirRelErr stOneVar (Ty.opq ⟨0, 5⟩ 3)
      (Ty.opq ⟨0, 5⟩ 4) :=
  c6_amended_same_identity_relator dirRelErr stOneVar (Ty.opq ⟨0, 5⟩ 3)
    (Ty.opq ⟨0, 5⟩ 4) (by decide) (by decide)

/-- C7: on any raw-distinct call whose resolved pair contains a variable
(the only calls that mint a pivot), the freshly minted pivot is unbound
at creation, and whenever the call returns `Ok(t)`, `t` is that pivot
and `relate_bound` succeeded on it against both resolved operands, with
the non-variable operand first in the single-variable case. -/
theorem c7_pivot_constrained_before_return (dir : LatticeDir)
    (s : InferState) (a b t : Ty) (hne : a ≠ b)
    (hv : (replace_if_possible s a).isVarShape = true ∨
          (replace_if_possible s b).isVarShape = true)
    (hok : (super_lattice_tys dir s a b).result = .ok t) :
    isUnboundVar (latticePivot dir s).2 (latticePivot dir s).1 = true ∧
    t = (latticePivot dir s).1 ∧
    (if (replace_if_possible s a).isVarShape then
      (dir.relateBound (latticePivot dir s).2 (latticePivot dir s).1
        (replace_if_possible s b) (replace_if_possible s a)).2 = .ok ()
     else
      (dir.relateBound (latticePivot dir s).2 (latticePivot dir s).1
        (replace_if_possible s a) (replace_if_possible s b)).2 = .ok ()) := by
  refine ⟨fresh_var_unbound _ _, ?_⟩
  by_cases hva : (replace_if_possible s a).isVarShape = true
  · obtain ⟨i, hi⟩ : ∃ i, replace_if_possible s a = Ty.tyVar i := by
      cases hx : replace_if_possible s a with
      | tyVar i => exact ⟨i, rfl⟩
      | opq d su => rw [hx] at hva; simp [Ty.isVarShape] at hva
      | other p => rw [hx] at hva; simp [Ty.isVarShape] at hva
    rw [slt_var_left dir s a b hne i hi] at hok
    obtain ⟨ht, hr⟩ := pivotOutcome_ok hok
    exact ⟨ht, by rw [if_pos hva]; exact hr⟩
  · have hva' : (replace_if_possible s a).isVarShape = false := by
      revert hva
      cases (replace_if_possible s a).isVarShape <;> simp
    have hvb : (replace_if_possible s b).isVarShape = true := by
      rcases hv with h | h
      · exact absurd h hva
      · exact h
    obtain ⟨j, hj⟩ : ∃ j, replace_if_possible s b = Ty.tyVar j := by
      cases hx : replace_if_possible s b with
      | tyVar j => exact ⟨j, rfl⟩
      | opq d su => rw [hx] at hvb; simp [Ty.isVarShape] at hvb
      | other p => rw [hx] at hvb; simp [Ty.isVarShape] at hvb
    rw [slt_var_right dir s a b hne hva' j hj] at hok
    obtain ⟨ht, hr⟩ := pivotOutcome_ok hok
    exact ⟨ht, by rw [if_neg hva]; exact hr⟩

/-- Witness for C7 at a concrete single-variable call returning `Ok`. -/
theorem c7_pivot_constrained_before_return_witness :
    isUnboundVar (latticePivot dirOk stOneVar).2
      (latticePivot dirOk stOneVar).1 = true ∧
    Ty.tyVar 1 = (latticePivot dirOk stOneVar).1 ∧
    (dirOk.relateBound (latticePivot dirOk stOneVar).2
      (latticePivot dirOk stOneVar).1 (Ty.other 7) (Ty.tyVar 0)).2 =
      .ok () :=
  c7_pivot_constrained_before_return dirOk stOneVar (Ty.tyVar 0)
    (Ty.other 7) (Ty.tyVar 1) (by decide) (Or.inl (by decide)) (by decide)

/-- A failing `relate_bound` verdict determines the whole pivot outcome:
the error and `relate_bound`'s output state are returned verbatim. -/
theorem pivotOutcome_eq_of_error {dir : LatticeDir} {s : InferState}
    {x y : Ty} {e : RelationError}
    (he : (dir.relateBound (latticePivot dir s).2 (latticePivot dir s).1
      x y).2 = .error e) :
    pivotOutcome dir s x y =
      ⟨(dir.relateBound (latticePivot dir s).2 (latticePivot dir s).1
        x y).1, [], .error e⟩ := by
  unfold pivotOutcome
  rcases hr : dir.relateBound (latticePivot dir s).2 (latticePivot dir s).1 x y
    with ⟨s2, r⟩
  rw [hr] at he
  dsimp at he
  subst he
  rfl

/-- C8: on a raw-distinct call, a `RelationError` is returned exactly
when the one collaborator the taken arm invokes raised exactly that
error — `relate_bound` on the fresh pivot in one of its two argument
orders, or the Structural Relator on the resolved pair — so errors pass
through unmodified, are never caught, transformed, downgraded or
invented, and an erroring call aborts having pushed no obligations. -/
theorem c8_error_propagated_unmodified (dir : LatticeDir) (s : InferState)
    (a b : Ty) (e : RelationError) (hne : a ≠ b) :
    ((super_lattice_tys dir s a b).result = .error e ↔
      ((super_lattice_tys dir s a b =
          pivotOutcome dir s (replace_if_possible s b)
            (replace_if_possible s a) ∧
        (dir.relateBound (latticePivot dir s).2 (latticePivot dir s).1
          (replace_if_possible s b) (replace_if_possible s a)).2 =
          .error e) ∨
       (super_lattice_tys dir s a b =
          pivotOutcome dir s (replace_if_possible s a)
            (replace_if_possible s b) ∧
        (dir.relateBound (latticePivot dir s).2 (latticePivot dir s).1
          (replace_if_possible s a) (replace_if_possible s b)).2 =
          .error e) ∨
       (super_lattice_tys dir s a b =
          relatorOutcome dir s (replace_if_possible s a)
            (replace_if_possible s b) ∧
        (dir.superCombineTys s (replace_if_possible s a)
          (replace_if_possible s b)).2 = .error e))) ∧
    ((super_lattice_tys dir s a b).result = .error e →
      (super_lattice_tys dir s a b).pushed = []) := by
  constructor
  · constructor
    · intro h
      rcases slt_cases dir s a b hne with hq | hq | hq | hq
      · rw [hq] at h
        refine Or.inl ⟨hq, ?_⟩
        rw [(pivotOutcome_error h).1]
      · rw [hq] at h
        refine Or.inr (Or.inl ⟨hq, ?_⟩)
        rw [(pivotOutcome_error h).1]
      · rw [hq] at h
        rw [deferOutcome_result] at h
        cases h
      · rw [hq] at h
        refine Or.inr (Or.inr ⟨hq, ?_⟩)
        rw [(relatorOutcome_error h).1]
    · intro h
      rcases h with ⟨hq, herr⟩ | ⟨hq, herr⟩ | ⟨hq, herr⟩
      · rw [hq, pivotOutcome_eq_of_error herr]
      · rw [hq, pivotOutcome_eq_of_error herr]
      · rw [hq]
        unfold relatorOutcome
        exact herr
  · intro h
    rcases slt_cases dir s a b hne with hq | hq | hq | hq
    · rw [hq] at h ⊢
      exact (pivotOutcome_error h).2
    · rw [hq] at h ⊢
      exact (pivotOutcome_error h).2
    · rw [hq] at h
      rw [deferOutcome_result] at h
      cases h
    · rw [hq] at h ⊢
      exact (relatorOutcome_error h).2

/-- Witness for C8: a mismatching non-opaque pair takes the fallback arm
and surfaces the relator's mismatch as the call's result. -/
theorem c8_error_propagated_unmodified_witness :
    (super_lattice_tys dirRelErr stOneVar (Ty.other 1)
      (Ty.other 2)).result = .error (.mismatch 3) :=
  ((c8_error_propagated_unmodified dirRelErr stOneVar (Ty.other 1)
    (Ty.other 2) (.mismatch 3) (by decide)).1).mpr
    (Or.inr (Or.inr ⟨by decide, by decide⟩))

/-- C9: two calls differing only in the ambient cause return the same
result (`Ok` term or `Err`), provided the collaborators behave
identically — formalised as: `relate_bound`'s verdict does not depend on
the diagnostic origins (the one place the cause reaches the table). The
cause only flows into the recorded variable origin and the pushed
obligation, never into the returned result. -/
theorem c9_cause_independent_result (dir : LatticeDir)
    (c' : ObligationCause) (s : InferState) (a b : Ty)
    (hrb : ∀ st₁ st₂ v x y, st₁.bindings = st₂.bindings →
      (dir.relateBound st₁ v x y).2 = (dir.relateBound st₂ v x y).2) :
    (super_lattice_tys { dir with cause := c' } s a b).result =
      (super_lattice_tys dir s a b).result := by
  by_cases hab : a = b
  · unfold super_lattice_tys
    rw [if_pos hab, if_pos hab]
  · rcases hA : replace_if_possible s a with i | ⟨d, sa⟩ | p
    · rw [slt_var_left { dir with cause := c' } s a b hab i hA,
        slt_var_left dir s a b hab i hA]
      exact pivotOutcome_cause_indep dir c' s _ _ hrb
    · rcases hB : replace_if_possible s b with j | ⟨e', sb⟩ | q
      · have hva : (replace_if_possible s a).isVarShape = false := by
          rw [hA]; rfl
        rw [slt_var_right { dir with cause := c' } s a b hab hva j hB,
          slt_var_right dir s a b hab hva j hB]
        exact pivotOutcome_cause_indep dir c' s _ _ hrb
      · unfold super_lattice_tys
        rw [if_neg hab, if_neg hab, hA, hB]
        dsimp only
        by_cases hd : d = e'
        · rw [if_pos hd, if_pos hd]
          rfl
        · rw [if_neg hd, if_neg hd]
          by_cases hg : (dir.defineOpqTypes && d.is_local
              || dir.defineOpqTypes && e'.is_local) = true
          · rw [if_pos hg, if_pos hg]
            rfl
          · rw [if_neg hg, if_neg hg]
            rfl
      · unfold super_lattice_tys
        rw [if_neg hab, if_neg hab, hA, hB]
        dsimp only
        by_cases hg : (dir.defineOpqTypes && d.is_local) = true
        · rw [if_pos hg, if_pos hg]
          rfl
        · rw [if_neg hg, if_neg hg]
          rfl
    · rcases hB : replace_if_possible s b with j | ⟨e', sb⟩ | q
      · have hva : (replace_if_possible s a).isVarShape = false := by
          rw [hA]; rfl
        rw [slt_var_right { dir with cause := c' } s a b hab hva j hB,
          slt_var_right dir s a b hab hva j hB]
        exact pivotOutcome_cause_indep dir c' s _ _ hrb
      · unfold super_lattice_tys
        rw [if_neg hab, if_neg hab, hA, hB]
        dsimp only
        by_cases hg : (dir.defineOpqTypes && e'.is_local) = true
        · rw [if_pos hg, if_pos hg]
          rfl
        · rw [if_neg hg, if_neg hg]
          rfl
      · unfold super_lattice_tys
        rw [if_neg hab, if_neg hab, hA, hB]
        dsimp only
        rfl

/-- Witness for C9 at a concrete pivot call under two different causes. -/
theorem c9_cause_independent_result_witness :
    (super_lattice_tys { dirOk with cause := cause1 } stOneVar
      (Ty.tyVar 0) (Ty.other 7)).result =
    (super_lattice_tys dirOk stOneVar (Ty.tyVar 0) (Ty.other 7)).result :=
  c9_cause_independent_result dirOk cause1 stOneVar (Ty.tyVar 0)
    (Ty.other 7) (fun _ _ _ _ _ _ => rfl)

/-- C10: in the single-variable arm the pivot is allocated BEFORE
`relate_bound` runs — `relate_bound` already receives the grown table
containing the unbound pivot — and when `relate_bound` fails the call
returns the error with `relate_bound`'s output state taken verbatim: the
allocation is not rolled back by this module. -/
theorem c10_pivot_persists_on_error (dir : LatticeDir) (s : InferState)
    (a b a' b' : Ty) (e : RelationError)
    (ha : replace_if_possible s a = a')
    (hb : replace_if_possible s b = b')
    (hone : (isUnboundVar s a' = true ∧ b'.isVarShape = false) ∨
            (a'.isVarShape = false ∧ isUnboundVar s b' = true))
    (he : (dir.relateBound (latticePivot dir s).2 (latticePivot dir s).1
      (if a'.isVarShape then b' else a')
      (if a'.isVarShape then a' else b')).2 = .error e) :
    (latticePivot dir s).2.bindings.length = s.bindings.length + 1 ∧
    isUnboundVar (latticePivot dir s).2 (latticePivot dir s).1 = true ∧
    super_lattice_tys dir s a b =
      ⟨(dir.relateBound (latticePivot dir s).2 (latticePivot dir s).1
        (if a'.isVarShape then b' else a')
        (if a'.isVarShape then a' else b')).1, [], .error e⟩ := by
  refine ⟨fresh_var_grows _ _, fresh_var_unbound _ _, ?_⟩
  rcases hone with ⟨hua, hvb⟩ | ⟨hva, hub⟩
  · have hsa : a'.isVarShape = true := varShape_of_unbound hua
    obtain ⟨i, hi⟩ : ∃ i, a' = Ty.tyVar i := by
      cases a' with
      | tyVar i => exact ⟨i, rfl⟩
      | opq d su => simp [Ty.isVarShape] at hsa
      | other p => simp [Ty.isVarShape] at hsa
    have hne' : a' ≠ b' := by
      intro hh
      rw [hh] at hsa
      rw [hsa] at hvb
      exact Bool.noConfusion hvb
    have hne : a ≠ b := raw_ne_of_resolved_ne (by rw [ha, hb]; exact hne')
    rw [slt_var_left dir s a b hne i (ha.trans hi), ha, hb]
    rw [if_pos hsa, if_pos hsa] at he
    rw [if_pos hsa, if_pos hsa]
    exact pivotOutcome_eq_of_error he
  · have hsb : b'.isVarShape = true := varShape_of_unbound hub
    obtain ⟨j, hj⟩ : ∃ j, b' = Ty.tyVar j := by
      cases b' with
      | tyVar j => exact ⟨j, rfl⟩
      | opq d su => simp [Ty.isVarShape] at hsb
      | other p => simp [Ty.isVarShape] at hsb
    have hne' : a' ≠ b' := by
      intro hh
      rw [← hh] at hsb
      rw [hsb] at hva
      exact Bool.noConfusion hva
    have hne : a ≠ b := raw_ne_of_resolved_ne (by rw [ha, hb]; exact hne')
    have hfa : ¬(a'.isVarShape = true) := by
      rw [hva]
      exact Bool.noConfusion
    rw [slt_var_right dir s a b hne (by rw [ha]; exact hva) j
      (hb.trans hj), ha, hb]
    rw [if_neg hfa, if_neg hfa] at he
    rw [if_neg hfa, if_neg hfa]
    exact pivotOutcome_eq_of_error he

/-- Witness for C10: concrete failing `relate_bound` on a
variable/concrete pair; the allocation survives in the returned state. -/
theorem c10_pivot_persists_on_error_witness :
    (latticePivot dirBoundErr stOneVar).2.bindings.length =
      stOneVar.bindings.length + 1 ∧
    isUnboundVar (latticePivot dirBoundErr stOneVar).2
      (latticePivot dirBoundErr stOneVar).1 = true ∧
    super_lattice_tys dirBoundErr stOneVar (Ty.tyVar 0) (Ty.other 7) =
      ⟨(dirBoundErr.relateBound (latticePivot dirBoundErr stOneVar).2
        (latticePivot dirBoundErr stOneVar).1 (Ty.other 7)
        (Ty.tyVar 0)).1, [], .error (.mismatch 9)⟩ :=
  c10_pivot_persists_on_error dirBoundErr stOneVar (Ty.tyVar 0)
    (Ty.other 7) (Ty.tyVar 0) (Ty.other 7) (.mismatch 9) (by decide)
    (by decide) (Or.inl ⟨by decide, by decide⟩) (by decide)


end RustcLattice
